import Mathlib

/-!
Shallow embedding of the client-side state/data-freshness logic of the
Outlook email-scraper dashboard (single React view module, `App.jsx` /
`src/unnamed/part_000`), together with theorems settling the frozen claims
about it.  Each definition mirrors one function or inline handler of the
source; machine state (React `useState` slices and `useRef` cells) is passed
explicitly, network outcomes are passed as parameters, and the requests a
handler issues are returned as explicit lists.
-/

namespace EmailScraper

/-- JS truthiness for strings: `if (s)` is taken iff `s` is nonempty. -/
def jsTruthy (s : String) : Bool := s ≠ ""

/-- An email summary as held in the `emails` state slice; only identity
matters for the claims, the remaining fields are opaque payload. -/
structure Email where
  id : Nat
  deriving DecidableEq, Repr

/-- Pagination slice: `useState({ skip: 0, top: 25, total: 0 })`. -/
structure Pagination where
  skip : Nat
  top : Nat
  total : Nat
  deriving DecidableEq, Repr

/-- Advanced inbox filters: `useState({ from_date: "", to_date: "", sender: "" })`. -/
structure InboxFilters where
  from_date : String
  to_date : String
  sender : String
  deriving DecidableEq, Repr

/-- Parsed body of a successful `/api/emails` response: `{ emails, total }`
(the `data.emails || []` / `data.total || 0` defaults applied). -/
structure EmailsResult where
  emails : List Email
  total : Nat
  deriving DecidableEq, Repr

/-- Query string of the live listing fetch built in `loadEmails`
(lines 571-577): `{skip, top: "25"}` then conditionally `folder_id`,
`search`, `from_date`, `to_date`, `sender`, each appended only when truthy. -/
def liveEmailParams (folderId : Option String) (skip : Nat) (search : String)
    (filters : InboxFilters) : List (String × String) :=
  [("skip", toString skip), ("top", "25")]
    ++ (match folderId with
        | some f => if jsTruthy f then [("folder_id", f)] else []
        | none => [])
    ++ (if jsTruthy search then [("search", search)] else [])
    ++ (if jsTruthy filters.from_date then [("from_date", filters.from_date)] else [])
    ++ (if jsTruthy filters.to_date then [("to_date", filters.to_date)] else [])
    ++ (if jsTruthy filters.sender then [("sender", filters.sender)] else [])

/-- Query string of the cache-fallback fetch built in `loadEmails`
(lines 587-590): `{skip, top: "25", source: "cache"}` then conditionally
`folder_id`, `search`, `sender` — the date-range filters are not set. -/
def cacheEmailParams (folderId : Option String) (skip : Nat) (search : String)
    (filters : InboxFilters) : List (String × String) :=
  [("skip", toString skip), ("top", "25"), ("source", "cache")]
    ++ (match folderId with
        | some f => if jsTruthy f then [("folder_id", f)] else []
        | none => [])
    ++ (if jsTruthy search then [("search", search)] else [])
    ++ (if jsTruthy filters.sender then [("sender", filters.sender)] else [])

/-- The email-listing slice of client state touched by `loadEmails`. -/
structure EmailListState where
  emails : List Email
  pagination : Pagination
  emailsFromCache : Bool
  deriving DecidableEq, Repr

/-- `loadEmails` (lines 567-605), with the live and cache fetch outcomes
passed explicitly (`none` models any failure: rejected fetch, non-2xx
status, or JSON error).  Returns the new state, the list of issued request
query strings (in order), and the list of `notify` notices raised. -/
def loadEmails (st : EmailListState) (folderId : Option String) (skip : Nat)
    (search : String) (filters : InboxFilters)
    (live : Option EmailsResult) (cache : Option EmailsResult) :
    EmailListState × List (List (String × String)) × List String :=
  match live with
  | some data =>
      ({ emails := data.emails,
         pagination := { skip := skip, top := 25, total := data.total },
         emailsFromCache := false },
       [liveEmailParams folderId skip search filters], [])
  | none =>
      if st.emailsFromCache then
        (st, [liveEmailParams folderId skip search filters],
         ["IMAP unavailable — showing cached emails"])
      else
        let reqs := [liveEmailParams folderId skip search filters,
                     cacheEmailParams folderId skip search filters]
        match cache with
        | some cData =>
            if cData.emails.isEmpty then
              (st, reqs, ["IMAP unavailable — showing cached emails"])
            else
              ({ emails := cData.emails,
                 pagination := { skip := skip, top := 25, total := cData.total },
                 emailsFromCache := true },
               reqs, ["IMAP unavailable — showing cached emails"])
        | none => (st, reqs, ["IMAP unavailable — showing cached emails"])

/-- The cache banner (lines 1676-1687) renders iff `emailsFromCache` is set
and the email list is nonempty. -/
def showsCacheBanner (st : EmailListState) : Bool :=
  st.emailsFromCache && !st.emails.isEmpty

/-- C1: counterexample.  The claim demands that the cache-fallback fetch
carry "the same filters (folder, search, date range, sender)" as the live
fetch, but `loadEmails` omits the date-range filters when building the
cache query: with `from_date = "2026-01-01"` the live query carries a
`from_date` parameter and the cache query does not (and likewise `to_date`
is absent from the cache query when set). -/
theorem loadEmails_cache_drops_date_filters :
    ((liveEmailParams none 0 "" ⟨"2026-01-01", "2026-02-01", ""⟩).map Prod.fst).contains
        "from_date" = true
    ∧ ((cacheEmailParams none 0 "" ⟨"2026-01-01", "2026-02-01", ""⟩).map Prod.fst).contains
        "from_date" = false
    ∧ ((cacheEmailParams none 0 "" ⟨"2026-01-01", "2026-02-01", ""⟩).map Prod.fst).contains
        "to_date" = false := by
  decide

/-- C1 (amended): on every listing request the live fetch is attempted
first; if it fails while the current emails are not already from cache, a
cache-variant fetch is issued with the same folder, search and sender
filters plus the explicit `source=cache` marker — but with the date-range
filters dropped — and the cached state is adopted (banner shown) iff that
cache fetch succeeds and returns at least one item; otherwise the email
slice is left unchanged. -/
theorem loadEmails_cache_fallback (st : EmailListState) (folderId : Option String)
    (skip : Nat) (search : String) (filters : InboxFilters)
    (cache : Option EmailsResult) (h : st.emailsFromCache = false) :
    (loadEmails st folderId skip search filters none cache).2.1
        = [liveEmailParams folderId skip search filters,
           cacheEmailParams folderId skip search filters]
    ∧ cacheEmailParams folderId skip search filters
        = cacheEmailParams folderId skip search
            { filters with from_date := "", to_date := "" }
    ∧ ("source", "cache") ∈ cacheEmailParams folderId skip search filters
    ∧ ((loadEmails st folderId skip search filters none cache).1.emailsFromCache = true
        ↔ ∃ c, cache = some c ∧ c.emails ≠ [])
    ∧ (showsCacheBanner (loadEmails st folderId skip search filters none cache).1 = true
        ↔ ∃ c, cache = some c ∧ c.emails ≠ [])
    ∧ ((loadEmails st folderId skip search filters none cache).1.emailsFromCache = false
        → (loadEmails st folderId skip search filters none cache).1 = st) := by
  refine ⟨?_, ?_, ?_, ?_, ?_, ?_⟩
  · cases cache with
    | none => simp [loadEmails, h]
    | some c =>
        by_cases hc : c.emails.isEmpty <;> simp [loadEmails, h, hc]
  · simp [cacheEmailParams]
  · simp [cacheEmailParams]
  · cases cache with
    | none => simp [loadEmails, h]
    | some c =>
        by_cases hc : c.emails = []
        · simp [loadEmails, h, List.isEmpty_iff, hc]
        · simp [loadEmails, h, List.isEmpty_iff, hc]
  · cases cache with
    | none => simp [loadEmails, h, showsCacheBanner]
    | some c =>
        by_cases hc : c.emails = []
        · simp [loadEmails, h, List.isEmpty_iff, hc, showsCacheBanner]
        · simp [loadEmails, h, List.isEmpty_iff, hc, showsCacheBanner]
  · cases cache with
    | none => intro _; simp [loadEmails, h]
    | some c =>
        by_cases hc : c.emails = [] <;> intro hfc <;>
          simp [loadEmails, h, List.isEmpty_iff, hc] at hfc ⊢

/-- C1 witness: the amended fallback theorem applied at a concrete empty
state with a failing live fetch and a cache fetch returning one email. -/
theorem loadEmails_cache_fallback_witness :
    (loadEmails ⟨[], ⟨0, 25, 0⟩, false⟩ none 0 "" ⟨"", "", ""⟩ none
          (some ⟨[⟨7⟩], 1⟩)).2.1
        = [liveEmailParams none 0 "" ⟨"", "", ""⟩, cacheEmailParams none 0 "" ⟨"", "", ""⟩]
    ∧ cacheEmailParams none 0 "" ⟨"", "", ""⟩
        = cacheEmailParams none 0 ""
            { (⟨"", "", ""⟩ : InboxFilters) with from_date := "", to_date := "" }
    ∧ ("source", "cache") ∈ cacheEmailParams none 0 "" ⟨"", "", ""⟩
    ∧ ((loadEmails ⟨[], ⟨0, 25, 0⟩, false⟩ none 0 "" ⟨"", "", ""⟩ none
          (some ⟨[⟨7⟩], 1⟩)).1.emailsFromCache = true
        ↔ ∃ c, (some (⟨[⟨7⟩], 1⟩ : EmailsResult)) = some c ∧ c.emails ≠ [])
    ∧ (showsCacheBanner (loadEmails ⟨[], ⟨0, 25, 0⟩, false⟩ none 0 "" ⟨"", "", ""⟩ none
          (some ⟨[⟨7⟩], 1⟩)).1 = true
        ↔ ∃ c, (some (⟨[⟨7⟩], 1⟩ : EmailsResult)) = some c ∧ c.emails ≠ [])
    ∧ ((loadEmails ⟨[], ⟨0, 25, 0⟩, false⟩ none 0 "" ⟨"", "", ""⟩ none
          (some ⟨[⟨7⟩], 1⟩)).1.emailsFromCache = false
        → (loadEmails ⟨[], ⟨0, 25, 0⟩, false⟩ none 0 "" ⟨"", "", ""⟩ none
            (some ⟨[⟨7⟩], 1⟩)).1 = ⟨[], ⟨0, 25, 0⟩, false⟩) :=
  loadEmails_cache_fallback ⟨[], ⟨0, 25, 0⟩, false⟩ none 0 "" ⟨"", "", ""⟩
    (some ⟨[⟨7⟩], 1⟩) rfl

/-! ### Debounced search (`useDebounce`, lines 24-31, and the effects at
lines 452-463)

The hook holds the raw `value`, at most one pending `setTimeout` (each
value change clears the previous timer in the effect cleanup, unmount
clears it too), and the `debounced` state.  The consumer effect keyed on
the debounced value issues one fetch whenever that value changes; React
re-runs such an effect only when the dependency actually changed, so
settling the timer on a value equal to the current debounced value issues
no fetch. -/

/-- Combined state of a debounced input: raw value, the single pending
timer `(deadline, value to publish)`, the published debounced value, and
the fetches issued so far (one per debounced-value change, in order). -/
structure DebounceState where
  value : String
  pending : Option (Nat × String)
  debounced : String
  fetches : List String
  deriving DecidableEq, Repr

/-- A pending timer expires: `setDebounced(v)` runs, and the consumer
effect fires a fetch for `v` iff the debounced value actually changed. -/
def fireTimer (s : DebounceState) : DebounceState :=
  match s.pending with
  | none => s
  | some (_, v) =>
      { s with
          pending := none
          debounced := v
          fetches := if v = s.debounced then s.fetches else s.fetches ++ [v] }

/-- Let wall-clock time reach `t`: the pending timer fires iff its
deadline has arrived. -/
def advanceTo (t : Nat) (s : DebounceState) : DebounceState :=
  match s.pending with
  | some (d, _) => if d ≤ t then fireTimer s else s
  | none => s

/-- An input change at time `t` to value `v`: any timer that was due
before `t` has already fired; the effect cleanup clears the previous
timer and a fresh 300ms timer is armed for `v`. -/
def keystroke (t : Nat) (v : String) (s : DebounceState) : DebounceState :=
  let s := advanceTo t s
  { s with value := v, pending := some (t + 300, v) }

/-- Process a time-ordered list of keystrokes. -/
def runKeys (ks : List (Nat × String)) (s : DebounceState) : DebounceState :=
  ks.foldl (fun acc k => keystroke k.1 k.2 acc) s

/-- Let the quiescence window elapse with no further input: the pending
timer (if any) fires. -/
def settle (s : DebounceState) : DebounceState := fireTimer s

/-- Unmount: the effect cleanup clears the pending timer, so it can never
fire afterwards. -/
def unmount (s : DebounceState) : DebounceState := { s with pending := none }

/-- A keystroke sequence in which every successive change arrives within
the 300ms quiescence window: times strictly increase, consecutive gaps are
below 300ms, and consecutive values differ (an input change event fires
only when the text actually changed). -/
def withinWindow : List (Nat × String) → Prop
  | [] => True
  | [_] => True
  | (t₁, v₁) :: (t₂, v₂) :: rest =>
      t₁ < t₂ ∧ t₂ < t₁ + 300 ∧ v₁ ≠ v₂ ∧ withinWindow ((t₂, v₂) :: rest)

/-- A settled debounce state: no timer pending and no fetches recorded yet. -/
def settled (v d : String) : DebounceState :=
  { value := v, pending := none, debounced := d, fetches := [] }

theorem runKeys_within (ks : List (Nat × String)) :
    ∀ (k : Nat × String) (s : DebounceState), withinWindow (k :: ks) →
      (∀ d u, s.pending = some (d, u) → k.1 < d) →
      runKeys (k :: ks) s
        = { s with value := (ks.getLastD k).2,
                   pending := some ((ks.getLastD k).1 + 300, (ks.getLastD k).2) } := by
  induction ks with
  | nil =>
      intro k s _ hp
      cases k with
      | mk t v =>
          simp only [runKeys, List.foldl, List.getLastD]
          cases hs : s.pending with
          | none => simp [keystroke, advanceTo, hs]
          | some du =>
              have hlt := hp du.1 du.2 (by rw [hs])
              simp [keystroke, advanceTo, hs, Nat.not_le.mpr hlt]
  | cons k₂ rest ih =>
      intro k s hw hp
      cases k with
      | mk t v =>
          obtain ⟨_, h2, _, hw'⟩ := hw
          have hstep : runKeys ((t, v) :: k₂ :: rest) s
              = runKeys (k₂ :: rest) (keystroke t v s) := by
            simp [runKeys, List.foldl]
          have hkey : keystroke t v s
              = { (advanceTo t s) with value := v, pending := some (t + 300, v) } := rfl
          have hadv : advanceTo t s = s := by
            cases hs : s.pending with
            | none => simp [advanceTo, hs]
            | some du =>
                have hlt := hp du.1 du.2 (by rw [hs])
                simp [advanceTo, hs, Nat.not_le.mpr hlt]
          rw [hstep, hkey, hadv]
          rw [ih k₂ _ hw' (by intro d u hdu; simp at hdu; omega)]
          rw [List.getLastD_cons]

/-- C2: counterexample.  Starting from a settled input whose debounced
value is `""`, typing `"a"` at t=0 and deleting back to `""` at t=100
(both changes within the 300ms window) and then letting the window elapse
issues NO fetch at all — the debounced value settles back to `""`, the
dependency does not change, and the consumer effect does not re-run —
whereas the claim requires exactly one fetch with the final value. -/
theorem debounce_no_fetch_on_restored_value :
    (settle (runKeys [(0, "a"), (100, "")] (settled "" ""))).fetches = []
    ∧ [] ≠ [""] := by
  constructor
  · rfl
  · simp

/-- C2 (amended): for every nonempty keystroke sequence whose successive
changes each arrive within the 300ms quiescence window, at most one fetch
is issued once the window elapses, and it uses the final typed value:
exactly one fetch when the final value differs from the previously settled
debounced value, and none when it equals it.  Unmounting before the window
elapses cancels the pending timer, so no fetch ever fires with a
superseded value. -/
theorem debounce_single_fetch (k : Nat × String) (ks : List (Nat × String))
    (v₀ d₀ : String) (hw : withinWindow (k :: ks)) :
    (settle (runKeys (k :: ks) (settled v₀ d₀))).fetches
        = (if (ks.getLastD k).2 = d₀ then [] else [(ks.getLastD k).2])
    ∧ (unmount (runKeys (k :: ks) (settled v₀ d₀))).fetches = []
    ∧ (settle (unmount (runKeys (k :: ks) (settled v₀ d₀)))).fetches = [] := by
  have hrun := runKeys_within ks k (settled v₀ d₀) hw (by intro d u hdu; simp [settled] at hdu)
  refine ⟨?_, ?_, ?_⟩
  · rw [hrun]
    by_cases hcond : (ks.getLastD k).2 = d₀ <;>
      simp only [List.getLastD_eq_getLast?] at hcond <;>
      simp [settle, fireTimer, settled, hcond]
  · rw [hrun]; simp [unmount, settled]
  · rw [hrun]; simp [settle, unmount, fireTimer, settled]

/-- C2 witness: typing `"anna"` at t=0 then `"annab"` at t=100 into an
input settled on `""` yields exactly one fetch, for `"annab"`; unmounting
instead yields none. -/
theorem debounce_single_fetch_witness :
    (settle (runKeys [(0, "anna"), (100, "annab")] (settled "" ""))).fetches
        = (if ([(100, "annab")].getLastD (0, "anna")).2 = "" then []
           else [([(100, "annab")].getLastD (0, "anna")).2])
    ∧ (unmount (runKeys [(0, "anna"), (100, "annab")] (settled "" ""))).fetches = []
    ∧ (settle (unmount (runKeys [(0, "anna"), (100, "annab")] (settled "" "")))).fetches
        = [] :=
  debounce_single_fetch (0, "anna") [(100, "annab")] "" ""
    (by refine ⟨?_, ?_, ?_, trivial⟩ <;> decide)

/-! ### Notification poller (`loadNotificationCount`, lines 289-301, and
the 60s poll effect, lines 321-341) -/

/-- A notification item as returned by `/api/notifications`. -/
structure Notif where
  id : Nat
  type : String
  title : String
  message : String
  is_read : Bool
  deriving DecidableEq, Repr

/-- The poller's state: the `unreadCount` state slice, the
`prevUnreadCountRef` ref cell, and the toast messages raised so far. -/
structure PollState where
  unreadCount : Nat
  prevRef : Nat
  toasts : List String
  deriving DecidableEq, Repr

/-- `n.message || n.title`: the toast text for one notification. -/
def toastMsg (n : Notif) : String :=
  if jsTruthy n.message then n.message else n.title

/-- `loadNotificationCount` (lines 289-301): on success the ref is set to
the previous `unreadCount` and the state to the freshly fetched count,
which is also returned; on any failure (non-2xx or thrown) nothing is
touched and no count is returned. -/
def loadNotificationCount (st : PollState) (res : Option Nat) :
    PollState × Option Nat :=
  match res with
  | none => (st, none)
  | some newCount =>
      ({ st with prevRef := st.unreadCount, unreadCount := newCount }, some newCount)

/-- The toasts one poll tick raises from a recent-items fetch result:
unread items of type `"new_high_fit"`, at most the first 3, one toast per
item.  A `none` list result (failed or non-2xx fetch) raises nothing. -/
def tickToasts (listRes : Option (List Notif)) : List String :=
  match listRes with
  | none => []
  | some items =>
      ((items.filter (fun n => !n.is_read && n.type == "new_high_fit")).take 3).map toastMsg

/-- One tick of the 60s poll effect (lines 323-339): fetch the count; when
it was obtained and strictly exceeds the previously-observed counter,
fetch the bounded recent list and raise the toasts. -/
def pollTick (st : PollState) (countRes : Option Nat)
    (listRes : Option (List Notif)) : PollState :=
  match loadNotificationCount st countRes with
  | (st', none) => st'
  | (st', some newCount) =>
      if newCount > st'.prevRef then
        { st' with toasts := st'.toasts ++ tickToasts listRes }
      else st'

/-- C3: on every successful poll tick the stored count is replaced by the
freshly fetched one (regardless of whether anything was toasted) and the
previously-observed counter used in the comparison is exactly the count
stored by the immediately preceding tick; toasts are raised precisely when
the new count strictly exceeds it, there are at most 3 of them, and each
comes from an unread `"new_high_fit"` item of the fetched list, so a batch
already accounted for by the stored count is never re-toasted. -/
theorem pollTick_bookkeeping (st : PollState) (n : Nat)
    (listRes : Option (List Notif)) :
    (pollTick st (some n) listRes).unreadCount = n
    ∧ (pollTick st (some n) listRes).prevRef = st.unreadCount
    ∧ (pollTick st (some n) listRes).toasts
        = st.toasts ++ (if n > st.unreadCount then tickToasts listRes else [])
    ∧ (tickToasts listRes).length ≤ 3
    ∧ (∀ m ∈ tickToasts listRes, ∃ items, listRes = some items ∧
        ∃ x ∈ items, x.is_read = false ∧ x.type = "new_high_fit" ∧ m = toastMsg x) := by
  refine ⟨?_, ?_, ?_, ?_, ?_⟩
  · by_cases hgt : n > st.unreadCount <;>
      simp [pollTick, loadNotificationCount, hgt]
  · by_cases hgt : n > st.unreadCount <;>
      simp [pollTick, loadNotificationCount, hgt]
  · by_cases hgt : n > st.unreadCount <;>
      simp [pollTick, loadNotificationCount, hgt]
  · cases listRes with
    | none => simp [tickToasts]
    | some items =>
        simp only [tickToasts, List.length_map]
        exact le_trans (List.length_take_le 3 _) (le_refl 3)
  · intro m hm
    cases listRes with
    | none => simp [tickToasts] at hm
    | some items =>
        refine ⟨items, rfl, ?_⟩
        simp only [tickToasts, List.mem_map] at hm
        obtain ⟨x, hx, hmx⟩ := hm
        have hx' : x ∈ items.filter (fun n => !n.is_read && n.type == "new_high_fit") :=
          List.mem_of_mem_take hx
        rw [List.mem_filter] at hx'
        refine ⟨x, hx'.1, ?_, ?_, hmx.symm⟩
        · have := hx'.2
          simp only [Bool.and_eq_true, Bool.not_eq_true'] at this
          exact this.1
        · have := hx'.2
          simp only [Bool.and_eq_true, beq_iff_eq] at this
          exact this.2

/-! ### Candidate notes (`saveCandidateNotes`, lines 766-778, and the
notes textarea `onBlur` handlers, lines 2819-2825 and 3079-3089) -/

/-- A candidate record; `notes` is `none` when the backend field is
null/absent (the handlers read it as `c.notes || ""`). -/
structure Candidate where
  id : Nat
  notes : Option String
  tags : List String
  deriving DecidableEq, Repr

/-- The `candidateNotesDraft` map: one buffered draft per candidate id. -/
def Drafts := List (Nat × String)

/-- Look a draft up (`candidateNotesDraft[c.id]`; `none` = `undefined`). -/
def draftLookup (ds : Drafts) (id : Nat) : Option String :=
  (List.find? (fun p => p.1 == id) ds).map (fun p => p.2)

/-- `delete n[c.id]`: drop the draft entry for this candidate. -/
def eraseDraft (ds : Drafts) (id : Nat) : Drafts :=
  List.filter (fun p => !(p.1 == id)) ds

/-- The state slices touched by the notes flow: the canonical candidate
list, the draft buffers, and the `notify` notices raised. -/
structure NotesState where
  candidates : List Candidate
  drafts : Drafts
  notices : List String

/-- `saveCandidateNotes` (lines 766-778), with the PATCH outcome passed
explicitly: on success the draft is folded into the canonical candidate
record; on failure nothing is touched and a notice is raised. -/
def saveCandidateNotes (st : NotesState) (id : Nat) (notes : String)
    (ok : Bool) : NotesState :=
  if ok then
    { st with candidates :=
        st.candidates.map (fun c => if c.id == id then { c with notes := some notes } else c) }
  else
    { st with notices := st.notices ++ ["Failed to save notes"] }

/-- The list-view notes `onBlur` handler (lines 2819-2825): if a draft is
buffered and differs from `c.notes || ""`, issue the save; in every case
the draft entry is then deleted.  Returns the new state and whether a
persistence request was issued. -/
def notesOnBlur (st : NotesState) (c : Candidate) (ok : Bool) :
    NotesState × Bool :=
  match draftLookup st.drafts c.id with
  | some draft =>
      if draft ≠ c.notes.getD "" then
        let st' := saveCandidateNotes st c.id draft ok
        ({ st' with drafts := eraseDraft st'.drafts c.id }, true)
      else
        ({ st with drafts := eraseDraft st.drafts c.id }, false)
  | none => ({ st with drafts := eraseDraft st.drafts c.id }, false)

/-- The value the notes textarea displays (lines 2816 and 3077):
the buffered draft if one exists, else the canonical `c.notes || ""`. -/
def displayedNotes (ds : Drafts) (c : Candidate) : String :=
  (draftLookup ds c.id).getD (c.notes.getD "")

/-- C4: counterexample.  The claim says a failed save leaves the typed
text visible (unsaved rather than lost), but the blur handler deletes the
draft buffer unconditionally, before the save settles: with canonical
notes `"old"` and typed draft `"new"`, blurring while the PATCH fails
leaves the canonical record unchanged and raises the notice, yet the draft
is gone and the textarea reverts to `"old"` — the typed `"new"` is lost. -/
theorem notesOnBlur_discards_draft_on_failure :
    (notesOnBlur ⟨[⟨1, some "old", []⟩], [(1, "new")], []⟩ ⟨1, some "old", []⟩ false).1.candidates
        = [⟨1, some "old", []⟩]
    ∧ (notesOnBlur ⟨[⟨1, some "old", []⟩], [(1, "new")], []⟩ ⟨1, some "old", []⟩ false).1.notices
        = ["Failed to save notes"]
    ∧ draftLookup
        (notesOnBlur ⟨[⟨1, some "old", []⟩], [(1, "new")], []⟩ ⟨1, some "old", []⟩ false).1.drafts
        1 = none
    ∧ displayedNotes
        (notesOnBlur ⟨[⟨1, some "old", []⟩], [(1, "new")], []⟩ ⟨1, some "old", []⟩ false).1.drafts
        ⟨1, some "old", []⟩ = "old"
    ∧ "old" ≠ "new" := by
  refine ⟨rfl, rfl, rfl, rfl, by decide⟩

/-- `setCandidateProfile((prev) => prev ? { ...prev, notes: draft } : prev)`
(line 3083) and the identical `setSelectedCandidate` updater (line 3084):
an open profile-view slice is overwritten with the draft. -/
def foldNotesIntoView (v : Option Candidate) (draft : String) : Option Candidate :=
  v.map (fun c => { c with notes := some draft })

/-- The state slices touched by the profile-view notes flow: the canonical
candidate list, the separately fetched `candidateProfile`, the open
`selectedCandidate`, the draft buffers, and the `notify` notices. -/
structure ProfileNotesState where
  candidates : List Candidate
  candidateProfile : Option Candidate
  selectedCandidate : Option Candidate
  drafts : Drafts
  notices : List String

/-- The profile-view notes `onBlur` handler (lines 3079-3089): the same
diff guard and unconditional draft deletion as the list-view handler, but
when a save is issued the draft is additionally folded into the
`candidateProfile` and `selectedCandidate` view slices immediately —
before, and regardless of, the PATCH outcome. -/
def profileNotesOnBlur (st : ProfileNotesState) (c : Candidate) (ok : Bool) :
    ProfileNotesState × Bool :=
  match draftLookup st.drafts c.id with
  | some draft =>
      if draft ≠ c.notes.getD "" then
        let inner := saveCandidateNotes ⟨st.candidates, st.drafts, st.notices⟩ c.id draft ok
        ({ candidates := inner.candidates
           candidateProfile := foldNotesIntoView st.candidateProfile draft
           selectedCandidate := foldNotesIntoView st.selectedCandidate draft
           drafts := eraseDraft st.drafts c.id
           notices := inner.notices }, true)
      else ({ st with drafts := eraseDraft st.drafts c.id }, false)
  | none => ({ st with drafts := eraseDraft st.drafts c.id }, false)

theorem draftLookup_eraseDraft (ds : Drafts) (id : Nat) :
    draftLookup (eraseDraft ds id) id = none := by
  simp only [draftLookup, eraseDraft, Option.map_eq_none']
  rw [List.find?_eq_none]
  intro p hp
  rw [List.mem_filter] at hp
  simpa using hp.2

/-- C4 (amended): in both notes handlers a persistence request is issued
iff a draft is buffered and differs from the last known server-confirmed
value, the draft buffer is deleted on blur regardless of the outcome, and
a failed save leaves the canonical candidate list unchanged and notifies
the user.  In the list view the displayed notes therefore revert to the
server-confirmed value on a failed save (the typed text is lost), while
in the profile view the typed text remains visible even on failure — not
because the draft buffer survives, but because the handler folds the
draft into the `candidateProfile` and `selectedCandidate` view slices
before, and regardless of, the PATCH outcome. -/
theorem notesOnBlur_contract (st : NotesState) (pst : ProfileNotesState)
    (c : Candidate) (ok : Bool) :
    ((notesOnBlur st c ok).2 = true
        ↔ ∃ d, draftLookup st.drafts c.id = some d ∧ d ≠ c.notes.getD "")
    ∧ (notesOnBlur st c false).1.candidates = st.candidates
    ∧ (notesOnBlur st c false).1.notices
        = st.notices ++ (if (notesOnBlur st c false).2 then ["Failed to save notes"] else [])
    ∧ (notesOnBlur st c ok).1.drafts = eraseDraft st.drafts c.id
    ∧ ((profileNotesOnBlur pst c ok).2 = true
        ↔ ∃ d, draftLookup pst.drafts c.id = some d ∧ d ≠ c.notes.getD "")
    ∧ (profileNotesOnBlur pst c false).1.candidates = pst.candidates
    ∧ (profileNotesOnBlur pst c false).1.notices
        = pst.notices
            ++ (if (profileNotesOnBlur pst c false).2 then ["Failed to save notes"] else [])
    ∧ (profileNotesOnBlur pst c ok).1.drafts = eraseDraft pst.drafts c.id
    ∧ (∀ d, draftLookup pst.drafts c.id = some d → d ≠ c.notes.getD ""
        → (profileNotesOnBlur pst c ok).1.candidateProfile
              = foldNotesIntoView pst.candidateProfile d
          ∧ (profileNotesOnBlur pst c ok).1.selectedCandidate
              = foldNotesIntoView pst.selectedCandidate d)
    ∧ (∀ d, draftLookup pst.drafts c.id = some d → d ≠ c.notes.getD ""
        → pst.candidateProfile = some c
        → (profileNotesOnBlur pst c false).1.candidateProfile
              = some { c with notes := some d }
          ∧ displayedNotes (profileNotesOnBlur pst c false).1.drafts
              { c with notes := some d } = d) := by
  refine ⟨?_, ?_, ?_, ?_, ?_, ?_, ?_, ?_, ?_, ?_⟩
  · cases hd : draftLookup st.drafts c.id with
    | none => simp [notesOnBlur, hd]
    | some d =>
        by_cases hne : d ≠ c.notes.getD "" <;>
          simp [notesOnBlur, hd, hne, saveCandidateNotes]
  · cases hd : draftLookup st.drafts c.id with
    | none => simp [notesOnBlur, hd]
    | some d =>
        by_cases hne : d ≠ c.notes.getD "" <;>
          simp [notesOnBlur, hd, hne, saveCandidateNotes]
  · cases hd : draftLookup st.drafts c.id with
    | none => simp [notesOnBlur, hd]
    | some d =>
        by_cases hne : d ≠ c.notes.getD "" <;>
          simp [notesOnBlur, hd, hne, saveCandidateNotes]
  · cases hd : draftLookup st.drafts c.id with
    | none => simp [notesOnBlur, hd]
    | some d =>
        by_cases hne : d ≠ c.notes.getD "" <;>
          cases ok <;> simp [notesOnBlur, hd, hne, saveCandidateNotes]
  · cases hd : draftLookup pst.drafts c.id with
    | none => simp [profileNotesOnBlur, hd]
    | some d =>
        by_cases hne : d ≠ c.notes.getD "" <;>
          simp [profileNotesOnBlur, hd, hne, saveCandidateNotes]
  · cases hd : draftLookup pst.drafts c.id with
    | none => simp [profileNotesOnBlur, hd]
    | some d =>
        by_cases hne : d ≠ c.notes.getD "" <;>
          simp [profileNotesOnBlur, hd, hne, saveCandidateNotes]
  · cases hd : draftLookup pst.drafts c.id with
    | none => simp [profileNotesOnBlur, hd]
    | some d =>
        by_cases hne : d ≠ c.notes.getD "" <;>
          simp [profileNotesOnBlur, hd, hne, saveCandidateNotes]
  · cases hd : draftLookup pst.drafts c.id with
    | none => simp [profileNotesOnBlur, hd]
    | some d =>
        by_cases hne : d ≠ c.notes.getD "" <;>
          cases ok <;> simp [profileNotesOnBlur, hd, hne, saveCandidateNotes]
  · intro d hd hne
    simp [profileNotesOnBlur, hd, hne]
  · intro d hd hne hcp
    have hfold : (profileNotesOnBlur pst c false).1.candidateProfile
        = foldNotesIntoView pst.candidateProfile d := by
      simp [profileNotesOnBlur, hd, hne]
    have hdrafts : (profileNotesOnBlur pst c false).1.drafts
        = eraseDraft pst.drafts c.id := by
      simp [profileNotesOnBlur, hd, hne]
    refine ⟨?_, ?_⟩
    · rw [hfold, hcp, foldNotesIntoView, Option.map_some']
    · rw [hdrafts, displayedNotes, draftLookup_eraseDraft]
      simp

/-! ### Resource loaders (lines 557-565, 621-646, 740-753, 810-838,
860-868, 935-944, 303-310)

Each loader is modelled as a function of the previous state slice and the
fetch outcome (`some` = 2xx with parsed body, `none` = rejected fetch,
non-2xx, or JSON error), returning the new slice and the `notify` notices
raised.  Every loader catches locally — being a total Lean function, its
error path is explicit and nothing propagates. -/

/-- Opaque parsed payloads of the various endpoints; their content is
irrelevant to the claims, only whole-slice replacement matters. -/
structure StatsData where
  raw : Nat
  deriving DecidableEq, Repr

/-- A stored attachment row. -/
structure AttachmentRow where
  raw : Nat
  deriving DecidableEq, Repr

/-- A job requisition row. -/
structure JobRow where
  raw : Nat
  deriving DecidableEq, Repr

/-- One candidate-to-job match result row. -/
structure MatchRow where
  raw : Nat
  deriving DecidableEq, Repr

/-- A mail folder row. -/
structure FolderRow where
  raw : Nat
  deriving DecidableEq, Repr

/-- Parsed scheduler status payload. -/
structure SchedulerStatus where
  raw : Nat
  deriving DecidableEq, Repr

/-- Parsed storage-health payload. -/
structure StorageHealthData where
  raw : Nat
  deriving DecidableEq, Repr

/-- `loadFolders` (lines 557-565): failure only hits `console.error`, no
user-visible notice, slice untouched. -/
def loadFolders (prev : List FolderRow) (res : Option (List FolderRow)) :
    List FolderRow × List String :=
  match res with
  | some d => (d, [])
  | none => (prev, [])

/-- `loadStats` (lines 621-632). -/
def loadStats (prev : Option StatsData) (res : Option StatsData) :
    Option StatsData × List String :=
  match res with
  | some d => (some d, [])
  | none => (prev, ["Failed to load stats"])

/-- `loadAttachments` (lines 634-646). -/
def loadAttachments (prev : List AttachmentRow) (res : Option (List AttachmentRow)) :
    List AttachmentRow × List String :=
  match res with
  | some d => (d, [])
  | none => (prev, ["Failed to load attachments"])

/-- `loadCandidates` (lines 740-753). -/
def loadCandidates (prev : List Candidate) (res : Option (List Candidate)) :
    List Candidate × List String :=
  match res with
  | some d => (d, [])
  | none => (prev, ["Failed to load candidates"])

/-- `loadJobs` (lines 860-868). -/
def loadJobs (prev : List JobRow) (res : Option (List JobRow)) :
    List JobRow × List String :=
  match res with
  | some d => (d, [])
  | none => (prev, ["Failed to load jobs"])

/-- `loadMatchResults` (lines 935-944): the catch branch runs
`setMatchResults([])`, clearing the slice, and raises no notice. -/
def loadMatchResults (prev : List MatchRow) (res : Option (List MatchRow)) :
    List MatchRow × List String :=
  match res with
  | some d => (d, [])
  | none => ([], [])

/-- `loadNotifications` (lines 303-310): silent on failure. -/
def loadNotifications (prev : List Notif) (res : Option (List Notif)) :
    List Notif × List String :=
  match res with
  | some d => (d, [])
  | none => (prev, [])

/-- `loadStorageHealth` (lines 810-819). -/
def loadStorageHealth (prev : Option StorageHealthData)
    (res : Option StorageHealthData) : Option StorageHealthData × List String :=
  match res with
  | some d => (some d, [])
  | none => (prev, ["Failed to load storage health"])

/-- `loadSchedulerConfig` (lines 821-838): the catch comment is
`/* silent */`; failure touches nothing and raises no notice. -/
def loadSchedulerConfig (prev : Option SchedulerStatus)
    (res : Option SchedulerStatus) : Option SchedulerStatus × List String :=
  match res with
  | some d => (some d, [])
  | none => (prev, [])

/-- C5: counterexample.  The claim says every loader leaves its slice
untouched and surfaces a transient notice on failure, but
`loadMatchResults` clears its slice to the empty list on failure and
raises no notice: with a prior nonempty result list, a failed fetch
replaces it with `[]`. -/
theorem loadMatchResults_clears_on_failure :
    (loadMatchResults [⟨5⟩] none).1 = []
    ∧ (loadMatchResults [⟨5⟩] none).1 ≠ [⟨5⟩]
    ∧ (loadMatchResults [⟨5⟩] none).2 = [] := by
  refine ⟨rfl, by decide, rfl⟩

/-- C5 (amended): on success every loader wholly replaces its slice, and
no loader's error escapes (each is a total request/response cycle); on
failure the stats, attachments, candidates, jobs and storage-health
loaders leave the prior slice untouched and surface a transient notice,
the folders, notifications and scheduler-config loaders leave the prior
slice untouched but stay silent, and the match-results loader neither
preserves nor notifies: it clears its slice to `[]`. -/
theorem loaders_failure_contract :
    (∀ (p d : List FolderRow), loadFolders p (some d) = (d, [])
        ∧ loadFolders p none = (p, []))
    ∧ (∀ (p : Option StatsData) (d : StatsData), loadStats p (some d) = (some d, [])
        ∧ loadStats p none = (p, ["Failed to load stats"]))
    ∧ (∀ (p d : List AttachmentRow), loadAttachments p (some d) = (d, [])
        ∧ loadAttachments p none = (p, ["Failed to load attachments"]))
    ∧ (∀ (p d : List Candidate), loadCandidates p (some d) = (d, [])
        ∧ loadCandidates p none = (p, ["Failed to load candidates"]))
    ∧ (∀ (p d : List JobRow), loadJobs p (some d) = (d, [])
        ∧ loadJobs p none = (p, ["Failed to load jobs"]))
    ∧ (∀ (p d : List MatchRow), loadMatchResults p (some d) = (d, [])
        ∧ loadMatchResults p none = ([], []))
    ∧ (∀ (p d : List Notif), loadNotifications p (some d) = (d, [])
        ∧ loadNotifications p none = (p, []))
    ∧ (∀ (p : Option StorageHealthData) (d : StorageHealthData),
        loadStorageHealth p (some d) = (some d, [])
        ∧ loadStorageHealth p none = (p, ["Failed to load storage health"]))
    ∧ (∀ (p : Option SchedulerStatus) (d : SchedulerStatus),
        loadSchedulerConfig p (some d) = (some d, [])
        ∧ loadSchedulerConfig p none = (p, [])) := by
  refine ⟨?_, ?_, ?_, ?_, ?_, ?_, ?_, ?_, ?_⟩ <;>
    intro p d <;> exact ⟨rfl, rfl⟩

/-! ### Candidate tags (`addTagToCandidate` / `removeTagFromCandidate`,
lines 794-808, and the profile tag handlers, lines 3005-3058) -/

/-- Case-insensitive membership test used by every tag guard in the
source: `current.some((t) => t.toLowerCase() === tag.toLowerCase())`. -/
def ciMem (tags : List String) (tag : String) : Bool :=
  tags.any (fun t => t.toLower == tag.toLower)

/-- `addTagToCandidate` (lines 794-801): returns the full tag list handed
to `saveCandidateTags`, or `none` when no persistence request is issued
(unknown id, or the tag already present case-insensitively). -/
def addTagToCandidate (cands : List Candidate) (id : Nat) (tag : String) :
    Option (List String) :=
  match cands.find? (fun c => c.id == id) with
  | none => none
  | some c => if ciMem c.tags tag then none else some (c.tags ++ [tag])

/-- `removeTagFromCandidate` (lines 803-808): the full tag list handed to
`saveCandidateTags` (exact-match removal). -/
def removeTagFromCandidate (cands : List Candidate) (id : Nat) (tag : String) :
    Option (List String) :=
  match cands.find? (fun c => c.id == id) with
  | none => none
  | some c => some (c.tags.filter (fun t => !(t == tag)))

/-- The fold of a successful `saveCandidateTags` into the list slice
(line 788): the matching candidate's tag set is wholly replaced. -/
def applyTagsSave (cands : List Candidate) (id : Nat) (tags : List String) :
    List Candidate :=
  cands.map (fun c => if c.id == id then { c with tags := tags } else c)

/-- The profile-view custom-tag updater (lines 3044-3055), applied
identically to `candidateProfile` and `selectedCandidate`: append unless
the tag is already present case-insensitively. -/
def profileAddTag (c : Candidate) (newTag : String) : Candidate :=
  if ciMem c.tags newTag then c else { c with tags := c.tags ++ [newTag] }

/-- A tag set free of case-insensitive duplicates. -/
def ciNodup (tags : List String) : Prop :=
  tags.Pairwise (fun a b => a.toLower ≠ b.toLower)

theorem ciNodup_append_of_not_ciMem {tags : List String} {tag : String}
    (h : ciNodup tags) (hm : ciMem tags tag = false) : ciNodup (tags ++ [tag]) := by
  rw [ciNodup, List.pairwise_append]
  refine ⟨h, List.pairwise_singleton _ _, ?_⟩
  intro a ha b hb
  rw [List.mem_singleton] at hb
  intro hab
  rw [hb] at hab
  have hany : tags.any (fun t => t.toLower == tag.toLower) = true :=
    List.any_eq_true.mpr ⟨a, ha, by simp [hab]⟩
  rw [ciMem] at hm
  rw [hm] at hany
  exact Bool.false_ne_true hany

/-- C6: adding a tag already present under case-insensitive comparison is
a no-op — no persistence request is issued and no slice changes; when a
tag is added it is appended exactly once, so every mutation through
`addTagToCandidate`, the list-slice fold, and the profile-view updater
preserves the invariant that a candidate's tag set has no case-insensitive
duplicates, on every state slice the mutation fans out to. -/
theorem addTag_ci_duplicate_noop (cands : List Candidate) (id : Nat)
    (tag : String) (c : Candidate)
    (hfind : cands.find? (fun c => c.id == id) = some c) :
    (ciMem c.tags tag = true → addTagToCandidate cands id tag = none)
    ∧ (ciMem c.tags tag = false
        → addTagToCandidate cands id tag = some (c.tags ++ [tag]))
    ∧ (ciNodup c.tags → ∀ tags, addTagToCandidate cands id tag = some tags
        → ciNodup tags ∧ tags.length = c.tags.length + 1)
    ∧ (∀ tags, ciNodup tags → ∀ c' ∈ applyTagsSave cands id tags,
        (∀ c₀ ∈ cands, ciNodup c₀.tags) → ciNodup c'.tags)
    ∧ (∀ c₀ : Candidate, ciNodup c₀.tags → ciNodup (profileAddTag c₀ tag).tags
        ∧ (ciMem c₀.tags tag = true → profileAddTag c₀ tag = c₀)) := by
  refine ⟨?_, ?_, ?_, ?_, ?_⟩
  · intro hm; simp [addTagToCandidate, hfind, hm]
  · intro hm; simp [addTagToCandidate, hfind, hm]
  · intro hnd tags htags
    rw [addTagToCandidate, hfind] at htags
    by_cases hm : ciMem c.tags tag
    · simp [hm] at htags
    · simp only [hm, if_neg, Bool.false_eq_true, not_false_eq_true, if_false,
        Option.some.injEq] at htags
      subst htags
      exact ⟨ciNodup_append_of_not_ciMem hnd (by simpa using hm), by simp⟩
  · intro tags hnd c' hc' hall
    rw [applyTagsSave, List.mem_map] at hc'
    obtain ⟨c₀, hc₀, hc₀'⟩ := hc'
    by_cases hid : c₀.id == id
    · rw [if_pos hid] at hc₀'
      subst hc₀'
      exact hnd
    · rw [if_neg (by simpa using hid)] at hc₀'
      subst hc₀'
      exact hall c₀ hc₀
  · intro c₀ hnd
    constructor
    · by_cases hm : ciMem c₀.tags tag
      · simp [profileAddTag, hm]; exact hnd
      · simp only [profileAddTag, hm, Bool.false_eq_true, if_false]
        exact ciNodup_append_of_not_ciMem hnd (by simpa using hm)
    · intro hm; simp [profileAddTag, hm]

/-- C6 witness: in a state where candidate 1 carries tag `"Shortlisted"`,
adding `"shortlisted"` issues no persistence request, while adding
`"On Hold"` appends it once and keeps the set duplicate-free. -/
theorem addTag_ci_duplicate_noop_witness :
    (ciMem ["Shortlisted"] "shortlisted" = true
        → addTagToCandidate [⟨1, none, ["Shortlisted"]⟩] 1 "shortlisted" = none)
    ∧ (ciMem ["Shortlisted"] "shortlisted" = false
        → addTagToCandidate [⟨1, none, ["Shortlisted"]⟩] 1 "shortlisted"
            = some (["Shortlisted"] ++ ["shortlisted"]))
    ∧ (ciNodup ["Shortlisted"]
        → ∀ tags, addTagToCandidate [⟨1, none, ["Shortlisted"]⟩] 1 "shortlisted" = some tags
        → ciNodup tags ∧ tags.length = ["Shortlisted"].length + 1)
    ∧ (∀ tags, ciNodup tags
        → ∀ c' ∈ applyTagsSave [⟨1, none, ["Shortlisted"]⟩] 1 tags,
          (∀ c₀ ∈ [(⟨1, none, ["Shortlisted"]⟩ : Candidate)], ciNodup c₀.tags)
          → ciNodup c'.tags)
    ∧ (∀ c₀ : Candidate, ciNodup c₀.tags
        → ciNodup (profileAddTag c₀ "shortlisted").tags
        ∧ (ciMem c₀.tags "shortlisted" = true → profileAddTag c₀ "shortlisted" = c₀)) :=
  addTag_ci_duplicate_noop [⟨1, none, ["Shortlisted"]⟩] 1 "shortlisted"
    ⟨1, none, ["Shortlisted"]⟩ rfl

/-! ### Scheduler toggle (lines 3662-3698) -/

/-- The `schedulerForm` state slice. -/
structure SchedulerForm where
  interval_minutes : Nat
  folder : String
  subject_filter : String
  deriving DecidableEq, Repr

/-- Body of the `POST /api/scheduler/config` request. -/
structure SchedulerConfigBody where
  enabled : Bool
  interval_minutes : Nat
  folder : String
  subject_filter : Option String
  deriving DecidableEq, Repr

/-- The toggle `onClick` handler (lines 3663-3685): guarded by
`schedulerLoading`, it issues the persistence requests returned here (the
follow-up `loadSchedulerConfig` is a GET and persists nothing).  The body
combines the flipped flag with the current form values, with the source's
`||` defaults (`folder || "INBOX"`, `subject_filter || null`). -/
def schedulerToggleRequests (schedulerLoading : Bool) (isEnabled : Bool)
    (form : SchedulerForm) : List SchedulerConfigBody :=
  if schedulerLoading then []
  else
    [{ enabled := !isEnabled,
       interval_minutes := form.interval_minutes,
       folder := if jsTruthy form.folder then form.folder else "INBOX",
       subject_filter := if jsTruthy form.subject_filter then some form.subject_filter
                         else none }]

/-- C7: toggling the scheduler persists the new enabled flag together with
the current form values in exactly one combined update request — never two
independent persistence operations — and in particular toggling from
Disabled to Enabled with interval 30 sends a single
`{enabled: true, interval_minutes: 30, folder, subject_filter}` body. -/
theorem schedulerToggle_single_combined_request (isEnabled : Bool)
    (form : SchedulerForm) :
    schedulerToggleRequests false isEnabled form
        = [{ enabled := !isEnabled,
             interval_minutes := form.interval_minutes,
             folder := if jsTruthy form.folder then form.folder else "INBOX",
             subject_filter := if jsTruthy form.subject_filter then some form.subject_filter
                               else none }]
    ∧ (schedulerToggleRequests false isEnabled form).length = 1
    ∧ schedulerToggleRequests false false ⟨30, "INBOX", ""⟩
        = [{ enabled := true, interval_minutes := 30, folder := "INBOX",
             subject_filter := none }] := by
  refine ⟨rfl, rfl, by decide⟩

/-! ### Clear-all-data confirmation modal (lines 4069-4117) -/

/-- `disabled={clearConfirmText !== "CONFIRM"}` (line 4091): the delete
action is enabled iff the typed text is exactly `"CONFIRM"`. -/
def clearDeleteEnabled (clearConfirmText : String) : Bool :=
  clearConfirmText == "CONFIRM"

/-- The clear-data flow: the DELETE request (with its literal confirmation
body, line 4097) is issued only through the delete button, which is inert
while disabled. -/
def clearDataRequests (clearConfirmText : String) : List String :=
  if clearDeleteEnabled clearConfirmText then ["DELETE /api/storage/clear-data"] else []

/-- C8: the destructive clear-all-data request is issued iff the user
typed exactly the literal `"CONFIRM"`; for any other input — including the
lowercase `"confirm"` — the delete action is disabled and no request is
sent, a purely client-side guard evaluated before the request. -/
theorem clearData_requires_literal_confirm :
    (∀ t : String, clearDataRequests t ≠ [] ↔ t = "CONFIRM")
    ∧ clearDeleteEnabled "confirm" = false
    ∧ clearDataRequests "confirm" = []
    ∧ clearDeleteEnabled "CONFIRM" = true
    ∧ clearDataRequests "CONFIRM" ≠ [] := by
  refine ⟨?_, by decide, by decide, by decide, by decide⟩
  intro t
  by_cases ht : t = "CONFIRM" <;>
    simp [clearDataRequests, clearDeleteEnabled, ht]

/-! ### Email pagination (lines 571-581 and 1710-1738) -/

/-- `setPagination({ skip, top: 25, total: data.total || 0 })` on a
successful listing response (line 581): the requested offset together with
the server-reported total. -/
def paginationAfterResponse (skip total : Nat) : Pagination :=
  { skip := skip, top := 25, total := total }

/-- Next-page availability (lines 1730-1732): `skip + 25 < total`, both as
the click guard and as the disabled styling. -/
def nextPageClick (p : Pagination) : Option Nat :=
  if p.skip + 25 < p.total then some (p.skip + 25) else none

/-- Previous-page availability (lines 1722-1724): `skip > 0`, fetching
`max 0 (skip - 25)`. -/
def prevPageClick (p : Pagination) : Option Nat :=
  if p.skip > 0 then some (p.skip - 25) else none

/-- The range label (line 1717) shows `skip+1 – min(skip+top, total)`:
its end is clamped to the reported total. -/
def displayedRangeEnd (p : Pagination) : Nat :=
  min (p.skip + p.top) p.total

/-- C9: counterexample.  The claim's invariant `skip + top ≤ total` fails
after any response whose total is below the end of the fixed 25-item
window: a first-page response reporting `total = 10` yields pagination
`{skip: 0, top: 25, total: 10}` with `skip + top = 25 > 10`. -/
theorem pagination_window_exceeds_total :
    (paginationAfterResponse 0 10).skip + (paginationAfterResponse 0 10).top
        > (paginationAfterResponse 0 10).total := by
  decide

/-- C9 (amended): the pagination state after a response is the requested
offset with the fixed page size 25 and the server-reported total, with no
`skip + top ≤ total` bound; instead the *displayed* window end is clamped
to `min(skip + top, total) ≤ total`, and the next-page action is available
(and fetches `skip + 25`) iff `skip + 25 < total`, while the previous-page
action is available (and fetches `skip - 25`, floored at 0) iff
`skip > 0`. -/
theorem pagination_controls (skip total : Nat) (p : Pagination) :
    paginationAfterResponse skip total = { skip := skip, top := 25, total := total }
    ∧ displayedRangeEnd p ≤ p.total
    ∧ (nextPageClick p = some (p.skip + 25) ↔ p.skip + 25 < p.total)
    ∧ (nextPageClick p = none ↔ ¬p.skip + 25 < p.total)
    ∧ (prevPageClick p = some (p.skip - 25) ↔ 0 < p.skip)
    ∧ (prevPageClick p = none ↔ p.skip = 0) := by
  refine ⟨rfl, Nat.min_le_right _ _, ?_, ?_, ?_, ?_⟩
  · by_cases h : p.skip + 25 < p.total <;> simp [nextPageClick, h]
  · by_cases h : p.skip + 25 < p.total <;> simp [nextPageClick, h]
  · by_cases h : 0 < p.skip <;> simp [prevPageClick, h] <;> omega
  · by_cases h : 0 < p.skip <;> simp [prevPageClick, h] <;> omega

/-! ### Unread notification count updates (lines 1206-1220 and 1239-1252) -/

/-- Observable outcome of an awaited `fetch`. -/
inductive FetchOutcome where
  | resolvedOk
  | resolvedErrStatus
  | rejected
  deriving DecidableEq, Repr

/-- The mark-all-read handler (lines 1207-1213): `await` the PATCH, then
set the count to 0.  There is no `res.ok` check, so any resolved response
zeroes the count; a rejected fetch lands in the empty catch and the count
is left unchanged. -/
def markAllRead (outcome : FetchOutcome) (c : Int) : Int :=
  match outcome with
  | .rejected => c
  | _ => 0

/-- The single-notification click handler (lines 1239-1248): for an
unread item the PATCH outcome is swallowed by its own try/catch and the
local count is decremented with a floor at zero
(`Math.max(0, c - 1)`); an already-read item changes nothing. -/
def clickNotificationCount (isRead : Bool) (outcome : FetchOutcome) (c : Int) : Int :=
  if isRead then c else max 0 (c - 1)

/-- C10: counterexample.  The claim says mark-all-read "sets the count to
exactly zero before server confirmation", but the handler awaits the PATCH
first: when the request is rejected at the network level the count is left
unchanged (here 5), so the zeroing is not issued ahead of the response. -/
theorem markAllRead_not_before_confirmation :
    markAllRead FetchOutcome.rejected 5 = 5 ∧ markAllRead FetchOutcome.rejected 5 ≠ 0 := by
  refine ⟨rfl, by decide⟩

/-- C10 (amended): the locally tracked unread count is never negative:
marking a single unread notification read decrements with a floor at zero
regardless of the PATCH outcome, and clicking an already-read notification
leaves the count unchanged; marking all read sets the count to exactly
zero once the PATCH response arrives — without checking its status — but
leaves the count unchanged when the request is rejected at the network
level. -/
theorem unreadCount_never_negative (isRead : Bool) (outcome : FetchOutcome)
    (c : Int) (hc : 0 ≤ c) :
    (clickNotificationCount true outcome c = c)
    ∧ (clickNotificationCount false outcome c = max 0 (c - 1))
    ∧ 0 ≤ clickNotificationCount isRead outcome c
    ∧ markAllRead outcome c = (if outcome = FetchOutcome.rejected then c else 0)
    ∧ 0 ≤ markAllRead outcome c := by
  refine ⟨rfl, rfl, ?_, ?_, ?_⟩
  · cases isRead <;> simp [clickNotificationCount] <;> omega
  · cases outcome <;> simp [markAllRead]
  · cases outcome <;> simp [markAllRead] <;> omega

/-- C10 witness: the amended statement instantiated at an unread item, a
rejected PATCH, and a count of 5. -/
theorem unreadCount_never_negative_witness :
    (clickNotificationCount true FetchOutcome.rejected 5 = 5)
    ∧ (clickNotificationCount false FetchOutcome.rejected 5 = max 0 (5 - 1))
    ∧ (0 : Int) ≤ clickNotificationCount false FetchOutcome.rejected 5
    ∧ markAllRead FetchOutcome.rejected 5
        = (if FetchOutcome.rejected = FetchOutcome.rejected then (5 : Int) else 0)
    ∧ (0 : Int) ≤ markAllRead FetchOutcome.rejected 5 :=
  unreadCount_never_negative false FetchOutcome.rejected 5 (by decide)

end EmailScraper
